import Mathlib

/-!
# ZoneAlert backend — verification of the boundary-breach alerting core

Shallow embedding of the threshold evaluator, alert recorder, live-status
tracker, analytics aggregators and denormalized-counter maintenance of the
zonealert-backend repository (Express + Firestore/RTDB route handlers).
JavaScript numbers are modelled as exact rationals (`ℚ`) and timestamps as
integers (`ℤ`); Firestore collections are modelled as association lists keyed
by document id.
-/

/-- Reading/sensor status as produced by the threshold comparison
(`'alert'` / `'normal'` strings in the source). -/
inductive Status where
  | normal
  | alert
deriving DecidableEq

/-- `routes/sensor.routes.js` line 54: `const threshold = sensorData.boundary_threshold || 50;`.
JavaScript `||` replaces a missing (`undefined`) or zero threshold by the
default 50. -/
def effectiveThreshold (boundary_threshold : Option ℚ) : ℚ :=
  match boundary_threshold with
  | none => 50
  | some b => if b = 0 then 50 else b

/-- `routes/sensor.routes.js` line 55:
`const status = distance_measured < threshold ? 'alert' : 'normal';`. -/
def readingStatus (distance_measured threshold : ℚ) : Status :=
  if distance_measured < threshold then Status.alert else Status.normal

/-- `routes/sensor.routes.js` line 150 (POST /batch):
`status: reading.distance_measured < 50 ? 'alert' : 'normal'` — the batch
path compares against the constant 50, not the sensor's configured
threshold. -/
def batchItemStatus (distance_measured : ℚ) : Status :=
  if distance_measured < 50 then Status.alert else Status.normal

/-- Fields of a `sensor_units` Firestore document used by the reading path. -/
structure SensorData where
  zone_id : String
  farm_id : String
  farmer_id : Option String
  location_description : String
  boundary_threshold : Option ℚ

/-- A document of the `alerts` collection as written by `createAlert`
(`routes/sensor.routes.js` lines 492–503). `detected_at` is a
server-generated timestamp and is not modelled. -/
structure AlertRow where
  alert_id : Nat
  sensor_id : String
  zone_id : String
  farm_id : String
  alert_type : String
  security_level : String
  trigger_distance : ℚ
  description : String
  is_resolved : Bool
deriving DecidableEq

/-- A document of the `notifications` collection as written by `createAlert`
(`routes/sensor.routes.js` lines 510–519). -/
structure NotificationRow where
  alert_id : Nat
  farmer_id : Option String
  message : String
  is_read : Bool
  delivery_status : String
deriving DecidableEq

/-- A reading record pushed to `sensor_readings/<date>/<sensor>` in the RTDB
(`routes/sensor.routes.js` lines 62–74). -/
structure ReadingRow where
  sensor_id : String
  distance_measured : ℚ
  status : Status
  timestamp : ℤ
deriving DecidableEq

/-- The ephemeral `sensor_status/<sensor>` record in the RTDB
(`routes/sensor.routes.js` lines 77–82), fully overwritten on each reading. -/
structure LiveStatusRow where
  last_reading : ℚ
  last_timestamp : ℤ
  status : Status
  is_online : Bool
deriving DecidableEq

/-- Lookup in an association list keyed by document id (Firestore `.get`,
RTDB `.once`). -/
def lookupAssoc {α : Type} (l : List (String × α)) (k : String) : Option α :=
  match l with
  | [] => none
  | (k', v) :: rest => if k' = k then some v else lookupAssoc rest k

/-- Overwrite-or-create at a key (RTDB `.set`). -/
def setAssoc {α : Type} (l : List (String × α)) (k : String) (v : α) :
    List (String × α) :=
  match l with
  | [] => [(k, v)]
  | (k', v') :: rest =>
    if k' = k then (k, v) :: rest else (k', v') :: setAssoc rest k v

/-- Delete a document by id (Firestore `.delete()`, which succeeds even when
the document does not exist). -/
def removeAssoc {α : Type} (l : List (String × α)) (k : String) :
    List (String × α) :=
  match l with
  | [] => []
  | (k', v) :: rest =>
    if k' = k then removeAssoc rest k else (k', v) :: removeAssoc rest k

/-- Update a document's field in place (Firestore `.update` with
`FieldValue.increment`), applied at the matching document id. -/
def adjustAssoc {α : Type} (l : List (String × α)) (k : String) (f : α → α) :
    List (String × α) :=
  match l with
  | [] => []
  | (k', v) :: rest =>
    if k' = k then (k', f v) :: adjustAssoc rest k f
    else (k', v) :: adjustAssoc rest k f

/-- The datastore state touched by the sensor-reading path. `nextAlertId`
models Firestore's generation of a fresh document id on `.add`. -/
structure Store where
  alerts : List AlertRow
  notifications : List NotificationRow
  readings : List ReadingRow
  sensorStatus : List (String × LiveStatusRow)
  nextAlertId : Nat
deriving DecidableEq

/-- Which datastore writes inside `createAlert` throw. The source wraps the
whole body in `try { ... } catch { console.error(...) }`, so a thrown write
is logged and swallowed. -/
structure FailSpec where
  alertAddFails : Bool
  notifAddFails : Bool

def noFail : FailSpec := ⟨false, false⟩

/-- The alert document built at `routes/sensor.routes.js` lines 492–503:
`security_level: distance < 25 ? 'critical' : 'high'`. -/
def mkAlertRow (id : Nat) (sensor_id : String) (sd : SensorData)
    (distance : ℚ) : AlertRow :=
  { alert_id := id
    sensor_id := sensor_id
    zone_id := sd.zone_id
    farm_id := sd.farm_id
    alert_type := "boundary_breach"
    security_level := if distance < 25 then "critical" else "high"
    trigger_distance := distance
    description := "Livestock detected " ++ toString distance ++
      "m from boundary at " ++ sd.location_description
    is_resolved := false }

/-- `createAlert` (`routes/sensor.routes.js` lines 490–525): adds one alert
document, then one notification document referencing it. Any throw is caught
inside the function (the catch only logs), so earlier writes persist and no
error propagates to the caller. -/
def createAlert (f : FailSpec) (sensor_id : String) (sd : SensorData)
    (distance : ℚ) (s : Store) : Store :=
  if f.alertAddFails then
    -- firestore.collection('alerts').add threw; caught and logged
    s
  else
    let id := s.nextAlertId
    let row := mkAlertRow id sensor_id sd distance
    let s1 : Store :=
      { s with alerts := s.alerts ++ [row], nextAlertId := id + 1 }
    if f.notifAddFails then
      -- notifications .add threw after the alert was added; caught and logged
      s1
    else
      { s1 with notifications := s1.notifications ++
          [{ alert_id := id
             farmer_id := sd.farmer_id
             message := row.description
             is_read := false
             delivery_status := "pending" }] }

/-- The HTTP response of `POST /sensors/reading`. -/
structure ReadingResponse where
  code : Nat
  success : Bool
  status : Option Status
deriving DecidableEq

/-- `POST /sensors/reading` handler (`routes/sensor.routes.js` lines 13–118)
from the point after express-validator checks: API-key gate (401), sensor
lookup (404), threshold evaluation, RTDB reading push, RTDB live-status
overwrite, and conditional `createAlert` whose failures are swallowed. The
Firestore `sensor_units` counter update (line 85–93) touches no state the
claims mention and is not modelled. -/
def handleReading (f : FailSpec) (apiKeyValid : Bool)
    (sensorLookup : Option SensorData) (sensor_id : String)
    (distance_measured : ℚ) (timestamp : ℤ) (s : Store) :
    ReadingResponse × Store :=
  if apiKeyValid then
    match sensorLookup with
    | none => (⟨404, false, none⟩, s)
    | some sensorData =>
      let threshold := effectiveThreshold sensorData.boundary_threshold
      let status := readingStatus distance_measured threshold
      let row : ReadingRow :=
        { sensor_id := sensor_id
          distance_measured := distance_measured
          status := status
          timestamp := timestamp }
      let live : LiveStatusRow :=
        { last_reading := distance_measured
          last_timestamp := timestamp
          status := status
          is_online := true }
      let s1 : Store := { s with readings := s.readings ++ [row] }
      let s2 : Store :=
        { s1 with sensorStatus := setAssoc s1.sensorStatus sensor_id live }
      let s3 := if status = Status.alert then
          createAlert f sensor_id sensorData distance_measured s2
        else s2
      (⟨200, true, some status⟩, s3)
  else
    (⟨401, false, none⟩, s)

-- Basic lemmas about the association-list operations.

theorem lookupAssoc_setAssoc_self {α : Type} (l : List (String × α))
    (k : String) (v : α) : lookupAssoc (setAssoc l k v) k = some v := by
  induction l with
  | nil => simp [setAssoc, lookupAssoc]
  | cons p rest ih =>
    by_cases h : p.1 = k
    · simp [setAssoc, h, lookupAssoc]
    · simp [setAssoc, h, lookupAssoc, ih]

theorem lookupAssoc_adjustAssoc_self {α : Type} (l : List (String × α))
    (k : String) (f : α → α) :
    lookupAssoc (adjustAssoc l k f) k = (lookupAssoc l k).map f := by
  induction l with
  | nil => simp [adjustAssoc, lookupAssoc]
  | cons p rest ih =>
    by_cases h : p.1 = k
    · simp [adjustAssoc, h, lookupAssoc]
    · simp [adjustAssoc, h, lookupAssoc, ih]

theorem lookupAssoc_adjustAssoc_other {α : Type} (l : List (String × α))
    (k k' : String) (f : α → α) (hne : k' ≠ k) :
    lookupAssoc (adjustAssoc l k f) k' = lookupAssoc l k' := by
  induction l with
  | nil => simp [adjustAssoc, lookupAssoc]
  | cons p rest ih =>
    have hkk : ¬ k = k' := fun hc => hne hc.symm
    by_cases h : p.1 = k
    · simp [adjustAssoc, h, lookupAssoc, hkk, ih]
    · by_cases h2 : p.1 = k'
      · simp [adjustAssoc, h, lookupAssoc, h2, hne]
      · simp [adjustAssoc, h, lookupAssoc, h2, ih]

theorem lookupAssoc_removeAssoc_self {α : Type} (l : List (String × α))
    (k : String) : lookupAssoc (removeAssoc l k) k = none := by
  induction l with
  | nil => simp [removeAssoc, lookupAssoc]
  | cons p rest ih =>
    by_cases h : p.1 = k
    · simp [removeAssoc, h, ih]
    · simp [removeAssoc, h, lookupAssoc, ih]

theorem removeAssoc_of_absent {α : Type} (l : List (String × α)) (k : String)
    (h : lookupAssoc l k = none) : removeAssoc l k = l := by
  induction l with
  | nil => simp [removeAssoc]
  | cons p rest ih =>
    by_cases hp : p.1 = k
    · simp [lookupAssoc, hp] at h
    · simp [lookupAssoc, hp] at h
      simp [removeAssoc, hp, ih h]

-- `createAlert` touches only the alerts/notifications collections.

theorem createAlert_readings (f : FailSpec) (sid : String) (sd : SensorData)
    (d : ℚ) (s : Store) : (createAlert f sid sd d s).readings = s.readings := by
  by_cases h1 : f.alertAddFails <;> by_cases h2 : f.notifAddFails <;>
    simp [createAlert, h1, h2]

theorem createAlert_sensorStatus (f : FailSpec) (sid : String)
    (sd : SensorData) (d : ℚ) (s : Store) :
    (createAlert f sid sd d s).sensorStatus = s.sensorStatus := by
  by_cases h1 : f.alertAddFails <;> by_cases h2 : f.notifAddFails <;>
    simp [createAlert, h1, h2]

/-- An empty datastore, for concrete scenarios. -/
def emptyStore : Store :=
  { alerts := []
    notifications := []
    readings := []
    sensorStatus := []
    nextAlertId := 0 }

/-- A registered sensor with the default threshold 50, for concrete
scenarios. -/
def sdExample : SensorData :=
  { zone_id := "z1"
    farm_id := "f1"
    farmer_id := some "farmer1"
    location_description := "north fence"
    boundary_threshold := some 50 }

/-- Claim C1: for a reading submitted to POST /sensors/reading with measured
distance `d ≥ 0` against a sensor whose configured threshold is `t > 0`, the
derived status in the response is `alert` iff `d < t` (strict), and in
particular `d = t` yields `normal`. -/
theorem C1_reading_status_alert_iff
    (f : FailSpec) (sd : SensorData) (sensor_id : String)
    (d t : ℚ) (ts : ℤ) (s : Store)
    (hconf : sd.boundary_threshold = some t)
    (ht : 0 < t) (hd : 0 ≤ d) :
    ((handleReading f true (some sd) sensor_id d ts s).1.status
        = some Status.alert ↔ d < t) ∧
    (d = t → (handleReading f true (some sd) sensor_id d ts s).1.status
        = some Status.normal) := by
  have hteff : effectiveThreshold sd.boundary_threshold = t := by
    rw [hconf]
    simp [effectiveThreshold, ht.ne']
  simp only [handleReading, hteff]
  constructor
  · by_cases hlt : d < t <;> simp [readingStatus, hlt]
  · intro he
    subst he
    simp [readingStatus]

/-- Witness for C1 at `d = 30`, `t = 50`. -/
theorem C1_witness :
    (handleReading noFail true (some sdExample) "s1" 30 0 emptyStore).1.status
      = some Status.alert ∧
    (handleReading noFail true (some sdExample) "s1" 50 0 emptyStore).1.status
      = some Status.normal := by
  refine ⟨?_, ?_⟩
  · exact (C1_reading_status_alert_iff noFail sdExample "s1" 30 50 0 emptyStore
      rfl (by norm_num) (by norm_num)).1.mpr (by norm_num)
  · exact (C1_reading_status_alert_iff noFail sdExample "s1" 50 50 0 emptyStore
      rfl (by norm_num) (by norm_num)).2 rfl

/-- Claim C2: the severity tier recorded on a created breach alert is
`critical` iff the measured distance is `< 25`, and `high` otherwise; in the
concrete scenarios, distance 30 against threshold 50 records `high` and
distance 10 records `critical`. -/
theorem C2_severity_tier (id : Nat) (sid : String) (sd : SensorData) (d : ℚ) :
    (((mkAlertRow id sid sd d).security_level = "critical") ↔ d < 25) ∧
    (((mkAlertRow id sid sd d).security_level = "high") ↔ ¬ d < 25) ∧
    ((handleReading noFail true (some sdExample) "s1" 30 0 emptyStore).2.alerts.map
        (fun a => a.security_level) = ["high"]) ∧
    ((handleReading noFail true (some sdExample) "s1" 10 0 emptyStore).2.alerts.map
        (fun a => a.security_level) = ["critical"]) := by
  refine ⟨?_, ?_, ?_, ?_⟩
  · by_cases h : d < 25 <;> simp [mkAlertRow, h]
  · by_cases h : d < 25 <;> simp [mkAlertRow, h]
  · decide
  · decide

/-- Claim C3: when a reading's derived status is `alert`, the alert-recording
step appends exactly one new alert row (with a fresh id) and exactly one
notification row referencing that alert, unconditionally on the existing
store contents; a second consecutive breach reading for the same sensor
appends its own new alert row (no deduplication window). -/
theorem C3_alert_and_notification_appended
    (sd : SensorData) (sid : String) (d : ℚ) (ts ts' : ℤ) (s : Store)
    (halert : readingStatus d (effectiveThreshold sd.boundary_threshold)
      = Status.alert) :
    ((handleReading noFail true (some sd) sid d ts s).2.alerts
      = s.alerts ++ [mkAlertRow s.nextAlertId sid sd d]) ∧
    ((handleReading noFail true (some sd) sid d ts s).2.notifications
      = s.notifications ++
        [{ alert_id := s.nextAlertId
           farmer_id := sd.farmer_id
           message := (mkAlertRow s.nextAlertId sid sd d).description
           is_read := false
           delivery_status := "pending" }]) ∧
    ((handleReading noFail true (some sd) sid d ts'
        (handleReading noFail true (some sd) sid d ts s).2).2.alerts.length
      = s.alerts.length + 2) := by
  refine ⟨?_, ?_, ?_⟩ <;>
    simp [handleReading, halert, createAlert, noFail]

/-- Witness for C3: a breach reading (distance 30, threshold 50) against an
empty store creates one alert row and one notification referencing it. -/
theorem C3_witness :
    ((handleReading noFail true (some sdExample) "s1" 30 0 emptyStore).2.alerts
      = emptyStore.alerts ++ [mkAlertRow emptyStore.nextAlertId "s1" sdExample 30]) ∧
    ((handleReading noFail true (some sdExample) "s1" 30 1
        (handleReading noFail true (some sdExample) "s1" 30 0 emptyStore).2).2.alerts.length
      = emptyStore.alerts.length + 2) :=
  ⟨(C3_alert_and_notification_appended sdExample "s1" 30 0 1 emptyStore (by decide)).1,
   (C3_alert_and_notification_appended sdExample "s1" 30 1 1 emptyStore (by decide)).2.2⟩

/-- Claim C4: when the derived status is `alert` and the alert-recording
datastore writes fail in any combination, the reading-submission request
still succeeds with HTTP 200, and the reading and live-status writes that
already happened are kept. -/
theorem C4_alert_failure_swallowed
    (f : FailSpec) (sd : SensorData) (sid : String) (d : ℚ) (ts : ℤ)
    (s : Store)
    (halert : readingStatus d (effectiveThreshold sd.boundary_threshold)
      = Status.alert) :
    ((handleReading f true (some sd) sid d ts s).1.code = 200) ∧
    ((handleReading f true (some sd) sid d ts s).1.success = true) ∧
    ((handleReading f true (some sd) sid d ts s).2.readings
      = s.readings ++ [{ sensor_id := sid
                         distance_measured := d
                         status := Status.alert
                         timestamp := ts }]) ∧
    (lookupAssoc (handleReading f true (some sd) sid d ts s).2.sensorStatus sid
      = some { last_reading := d
               last_timestamp := ts
               status := Status.alert
               is_online := true }) := by
  refine ⟨?_, ?_, ?_, ?_⟩ <;>
    simp [handleReading, halert, createAlert_readings, createAlert_sensorStatus,
      lookupAssoc_setAssoc_self]

/-- Witness for C4: both the alert write and the notification write fail,
yet the request succeeds and the reading is kept. -/
theorem C4_witness :
    ((handleReading ⟨true, true⟩ true (some sdExample) "s1" 10 0 emptyStore).1.code
      = 200) ∧
    ((handleReading ⟨true, true⟩ true (some sdExample) "s1" 10 0 emptyStore).2.readings
      = emptyStore.readings ++ [{ sensor_id := "s1"
                                  distance_measured := 10
                                  status := Status.alert
                                  timestamp := 0 }]) :=
  ⟨(C4_alert_failure_swallowed ⟨true, true⟩ sdExample "s1" 10 0 emptyStore (by decide)).1,
   (C4_alert_failure_swallowed ⟨true, true⟩ sdExample "s1" 10 0 emptyStore (by decide)).2.2.1⟩

/-- `routes/sensor.routes.js` line 260:
`const isStale = Date.now() - liveData.last_timestamp > 300000;`. -/
def isStale (now last_timestamp : ℤ) : Bool :=
  now - last_timestamp > 300000

/-- The HTTP response of `GET /sensors/live/:sensorId`. -/
structure LiveResponse where
  code : Nat
  success : Bool
  is_stale : Option Bool
  age_seconds : Option ℤ
deriving DecidableEq

/-- `GET /sensors/live/:sensorId` handler (`routes/sensor.routes.js` lines
241–280): 404 when no live record exists, otherwise the live data with the
derived `is_stale` flag and `age_seconds = Math.floor((now - ts) / 1000)`. -/
def handleLive (s : Store) (sensorId : String) (now : ℤ) : LiveResponse :=
  match lookupAssoc s.sensorStatus sensorId with
  | none => ⟨404, false, none, none⟩
  | some live =>
    ⟨200, true, some (isStale now live.last_timestamp),
      some (Int.fdiv (now - live.last_timestamp) 1000)⟩

/-- Claim C5: when a live record with last timestamp `ts` exists, the
returned `is_stale` flag is `true` iff `now - ts > 300000` (strict), so at an
age of exactly 300000 ms the sensor is reported as non-stale. -/
theorem C5_staleness_boundary (s : Store) (sensorId : String) (now : ℤ)
    (live : LiveStatusRow)
    (hlive : lookupAssoc s.sensorStatus sensorId = some live) :
    ((handleLive s sensorId now).is_stale = some true ↔
      now - live.last_timestamp > 300000) ∧
    (now - live.last_timestamp = 300000 →
      (handleLive s sensorId now).is_stale = some false) := by
  constructor
  · simp [handleLive, hlive, isStale]
  · intro hb
    simp [handleLive, hlive, isStale, hb]

/-- A store holding one live record with last timestamp 0, for the C5
scenario. -/
def liveStoreExample : Store :=
  { emptyStore with sensorStatus := [("s1", ⟨10, 0, Status.normal, true⟩)] }

/-- Witness for C5: a live record of age exactly 300000 ms is non-stale, and
one of age 300001 ms is stale. -/
theorem C5_witness :
    ((handleLive liveStoreExample "s1" 300000).is_stale = some false) ∧
    ((handleLive liveStoreExample "s1" 300001).is_stale = some true) :=
  ⟨(C5_staleness_boundary liveStoreExample "s1" 300000
      ⟨10, 0, Status.normal, true⟩ (by decide)).2 (by decide),
   (C5_staleness_boundary liveStoreExample "s1" 300001
      ⟨10, 0, Status.normal, true⟩ (by decide)).1.mpr (by decide)⟩

/-- The all-zero 7×24 matrix built at `routes/analytics.routes.js` lines
387–389 (`Array.from({length: 7}, () => Array.from({length: 24}, () => 0))`),
modelled as a function on weekday × hour indices. JavaScript
`Date.prototype.getDay` always lies in `0..6` and `getHours` in `0..23`,
which the `Fin` index types capture. -/
def heatmapEmpty : Fin 7 → Fin 24 → ℕ := fun _ _ => 0

/-- One record's contribution, `heatmap[dayOfWeek][hour]++`
(`routes/analytics.routes.js` line 396). -/
def heatmapAdd (m : Fin 7 → Fin 24 → ℕ) (day : Fin 7) (hour : Fin 24) :
    Fin 7 → Fin 24 → ℕ :=
  fun d h => if d = day ∧ h = hour then m d h + 1 else m d h

/-- The fold over the alert snapshot (`routes/analytics.routes.js` lines
391–397): each record is bucketed by its detection timestamp's weekday and
hour-of-day. -/
def buildHeatmap (records : List (Fin 7 × Fin 24)) : Fin 7 → Fin 24 → ℕ :=
  records.foldl (fun m r => heatmapAdd m r.1 r.2) heatmapEmpty

/-- Sum of all matrix entries. -/
def heatmapTotal (m : Fin 7 → Fin 24 → ℕ) : ℕ :=
  ∑ d : Fin 7, ∑ h : Fin 24, m d h

theorem heatmapTotal_heatmapAdd (m : Fin 7 → Fin 24 → ℕ) (day : Fin 7)
    (hour : Fin 24) :
    heatmapTotal (heatmapAdd m day hour) = heatmapTotal m + 1 := by
  unfold heatmapTotal heatmapAdd
  have key : ∀ d h, (if d = day ∧ h = hour then m d h + 1 else m d h)
      = m d h + (if d = day ∧ h = hour then 1 else 0) := by
    intro d h
    by_cases hc : d = day ∧ h = hour <;> simp [hc]
  simp only [key, Finset.sum_add_distrib]
  have inner : ∀ d : Fin 7,
      (∑ h : Fin 24, if d = day ∧ h = hour then (1 : ℕ) else 0)
        = if d = day then 1 else 0 := by
    intro d
    by_cases hd : d = day
    · subst hd
      simp
    · simp [hd]
  simp [inner]

theorem heatmapTotal_foldl (records : List (Fin 7 × Fin 24))
    (m : Fin 7 → Fin 24 → ℕ) :
    heatmapTotal (records.foldl (fun m r => heatmapAdd m r.1 r.2) m)
      = heatmapTotal m + records.length := by
  induction records generalizing m with
  | nil => simp
  | cons r rest ih =>
    simp only [List.foldl_cons, List.length_cons, ih,
      heatmapTotal_heatmapAdd]
    omega

/-- Claim C6: the heatmap is a 7-by-24 matrix in which each alert record in
the queried range increments exactly one cell, so the sum of all entries
equals the number of records; appending one record to the scan changes
exactly its own weekday×hour cell. -/
theorem C6_heatmap_sum (records : List (Fin 7 × Fin 24)) (r : Fin 7 × Fin 24) :
    (heatmapTotal (buildHeatmap records) = records.length) ∧
    (buildHeatmap (records ++ [r])
      = heatmapAdd (buildHeatmap records) r.1 r.2) := by
  constructor
  · have h0 : heatmapTotal heatmapEmpty = 0 := by
      simp [heatmapTotal, heatmapEmpty]
    simp [buildHeatmap, heatmapTotal_foldl, h0]
  · simp [buildHeatmap]

/-- Counterexample to claim C7: for a sensor configured with threshold 100
and a measured distance of 60, the single-reading endpoint derives `alert`
(60 < 100) while the batch endpoint derives `normal` (60 ≥ 50), so the two
paths do not agree on every input. -/
theorem C7_counterexample :
    readingStatus 60 (effectiveThreshold (some 100)) = Status.alert ∧
    batchItemStatus 60 = Status.normal ∧
    batchItemStatus 60 ≠ readingStatus 60 (effectiveThreshold (some 100)) := by
  refine ⟨by decide, by decide, by decide⟩

/-- Claim C7 as amended: the batch endpoint evaluates each item against the
hardcoded constant 50, so it agrees with the single-reading endpoint exactly
on sensors whose effective threshold is 50 (in particular sensors with no
configured threshold, which default to 50). -/
theorem C7_batch_fixed_threshold (d : ℚ) (bt : Option ℚ)
    (h50 : effectiveThreshold bt = 50) :
    batchItemStatus d = readingStatus d (effectiveThreshold bt) := by
  rw [h50]
  rfl

/-- Witness for the amended C7: an unconfigured threshold defaults to 50 and
the two paths agree there. -/
theorem C7_witness :
    batchItemStatus 30 = readingStatus 30 (effectiveThreshold none) :=
  C7_batch_fixed_threshold 30 none (by decide)

/-- An `Alerts` collection record as read by the analytics endpoints
(`routes/analytics.routes.js`): the `distance` field may be absent
(`data.distance || 0`). -/
structure AnalyticsRecord where
  alert : Bool
  resolved : Bool
  distance : Option ℚ
  deviceId : String

/-- JavaScript `Math.round` (half toward positive infinity). -/
def jsRound (q : ℚ) : ℤ := ⌊q + 1 / 2⌋

/-- `Math.round(x * 100) / 100`, the two-decimal rounding applied to average
distances in the analytics responses. -/
def round2 (q : ℚ) : ℚ := (jsRound (q * 100) : ℚ) / 100

/-- Accumulator of the dashboard scan (`routes/analytics.routes.js` lines
46–57). `deviceIds` models the `Set` of devices by de-duplicated insertion
order. -/
structure DashboardStats where
  totalAlerts : ℕ
  activeAlerts : ℕ
  totalDistance : ℚ
  deviceIds : List String

/-- One step of the dashboard `snapshot.forEach` fold. -/
def dashboardFold (st : DashboardStats) (r : AnalyticsRecord) :
    DashboardStats :=
  { totalAlerts := st.totalAlerts + 1
    activeAlerts := if r.alert ∧ ¬ r.resolved then st.activeAlerts + 1
      else st.activeAlerts
    totalDistance := st.totalDistance + r.distance.getD 0
    deviceIds := if st.deviceIds.contains r.deviceId then st.deviceIds
      else st.deviceIds ++ [r.deviceId] }

/-- `GET /analytics/dashboard` average distance
(`routes/analytics.routes.js` lines 59 and 69):
`totalAlerts > 0 ? totalDistance / totalAlerts : 0`, rounded to two
decimals in the response. -/
def dashboardAvgDistance (records : List AnalyticsRecord) : ℚ :=
  let st := records.foldl dashboardFold ⟨0, 0, 0, []⟩
  let avg := if st.totalAlerts > 0 then st.totalDistance / st.totalAlerts
    else 0
  round2 avg

/-- Accumulator of the per-device scan (`routes/analytics.routes.js` lines
322–337). `minDistance = none` models the `Infinity` initial sentinel, below
which every distance compares. -/
structure DeviceDetailStats where
  totalAlerts : ℕ
  activeAlerts : ℕ
  totalDistance : ℚ
  minDistance : Option ℚ
  maxDistance : ℚ

/-- One step of the `GET /analytics/devices/:deviceId` fold. -/
def deviceDetailFold (st : DeviceDetailStats) (r : AnalyticsRecord) :
    DeviceDetailStats :=
  let distance := r.distance.getD 0
  { totalAlerts := st.totalAlerts + 1
    activeAlerts := if r.alert ∧ ¬ r.resolved then st.activeAlerts + 1
      else st.activeAlerts
    totalDistance := st.totalDistance + distance
    minDistance := match st.minDistance with
      | none => some distance
      | some m => if distance < m then some distance else some m
    maxDistance := if distance > st.maxDistance then distance
      else st.maxDistance }

/-- The response body of `GET /analytics/devices/:deviceId`. -/
structure DeviceDetailResponse where
  totalAlerts : ℕ
  activeAlerts : ℕ
  avgDistance : ℚ
  minDistance : ℚ
  maxDistance : ℚ
deriving DecidableEq

/-- `GET /analytics/devices/:deviceId` (`routes/analytics.routes.js` lines
303–352): fold the matching records, guard the average
(`totalAlerts > 0 ? ... : 0`), and replace an untouched `Infinity` minimum by
0 (`minDistance === Infinity ? 0 : minDistance`). -/
def deviceDetail (records : List AnalyticsRecord) : DeviceDetailResponse :=
  let st := records.foldl deviceDetailFold ⟨0, 0, 0, none, 0⟩
  let avg := if st.totalAlerts > 0 then st.totalDistance / st.totalAlerts
    else 0
  { totalAlerts := st.totalAlerts
    activeAlerts := st.activeAlerts
    avgDistance := round2 avg
    minDistance := st.minDistance.getD 0
    maxDistance := st.maxDistance }

/-- Claim C9: on a time range matching zero alert records the aggregation
endpoints return zero statistics — average distance 0, minimum distance 0
(not infinity), maximum 0, zero counts, an all-zero heatmap — and the
computation is total, with no division-by-zero failure. -/
theorem C9_empty_range_zero_stats :
    deviceDetail [] = ⟨0, 0, 0, 0, 0⟩ ∧
    dashboardAvgDistance [] = 0 ∧
    (∀ (d : Fin 7) (h : Fin 24), buildHeatmap [] d h = 0) := by
  refine ⟨?_, ?_, fun d h => rfl⟩
  · simp only [deviceDetail, List.foldl_nil]
    norm_num [round2, jsRound]
  · simp only [dashboardAvgDistance, List.foldl_nil]
    norm_num [round2, jsRound]

/-- Parent references on a `livestock` document (livestock routes,
src/unnamed/part_004). -/
structure LivestockDoc where
  zone_id : String
  farm_id : String
  identification_tag : String
deriving DecidableEq

/-- The Firestore slice touched by the livestock-deletion handler:
livestock documents, each boundary zone's `current_livestock_count`, each
farm's `livestock_count`, and each farmer's `farms_count` (which this
handler never touches). -/
structure LivestockStore where
  livestock : List (String × LivestockDoc)
  zoneCounts : List (String × ℤ)
  farmCounts : List (String × ℤ)
  farmerCounts : List (String × ℤ)

/-- `DELETE /api/livestock/:livestockId` (src/unnamed/part_004 lines
377–435): 404 when the livestock document does not exist; otherwise delete
the document, `FieldValue.increment(-1)` the zone's
`current_livestock_count`, and `FieldValue.increment(-1)` the farm's
`livestock_count`. -/
def deleteLivestock (s : LivestockStore) (livestockId : String) :
    Option LivestockStore :=
  match lookupAssoc s.livestock livestockId with
  | none => none
  | some ld =>
    some { s with
      livestock := removeAssoc s.livestock livestockId
      zoneCounts := adjustAssoc s.zoneCounts ld.zone_id (fun c => c - 1)
      farmCounts := adjustAssoc s.farmCounts ld.farm_id (fun c => c - 1) }

/-- Claim C8: a successful deletion of livestock `L` (farm `F`, zone `Z`)
removes `L` and decrements both `Z.current_livestock_count` and
`F.livestock_count` by exactly 1, leaving every other zone counter, every
other farm counter and all farmer counters unchanged. -/
theorem C8_delete_livestock_decrements
    (s : LivestockStore) (livestockId : String) (ld : LivestockDoc)
    (cz cf : ℤ)
    (hl : lookupAssoc s.livestock livestockId = some ld)
    (hz : lookupAssoc s.zoneCounts ld.zone_id = some cz)
    (hf : lookupAssoc s.farmCounts ld.farm_id = some cf) :
    ((deleteLivestock s livestockId).map
        (fun t => lookupAssoc t.livestock livestockId) = some none) ∧
    ((deleteLivestock s livestockId).map
        (fun t => lookupAssoc t.zoneCounts ld.zone_id) = some (some (cz - 1))) ∧
    ((deleteLivestock s livestockId).map
        (fun t => lookupAssoc t.farmCounts ld.farm_id) = some (some (cf - 1))) ∧
    (∀ z, z ≠ ld.zone_id → (deleteLivestock s livestockId).map
        (fun t => lookupAssoc t.zoneCounts z) = some (lookupAssoc s.zoneCounts z)) ∧
    (∀ f, f ≠ ld.farm_id → (deleteLivestock s livestockId).map
        (fun t => lookupAssoc t.farmCounts f) = some (lookupAssoc s.farmCounts f)) ∧
    ((deleteLivestock s livestockId).map (fun t => t.farmerCounts)
        = some s.farmerCounts) := by
  refine ⟨?_, ?_, ?_, ?_, ?_, ?_⟩
  · simp [deleteLivestock, hl, lookupAssoc_removeAssoc_self]
  · simp [deleteLivestock, hl, lookupAssoc_adjustAssoc_self, hz]
  · simp [deleteLivestock, hl, lookupAssoc_adjustAssoc_self, hf]
  · intro z hzne
    simp [deleteLivestock, hl, lookupAssoc_adjustAssoc_other _ _ _ _ hzne]
  · intro f hfne
    simp [deleteLivestock, hl, lookupAssoc_adjustAssoc_other _ _ _ _ hfne]
  · simp [deleteLivestock, hl]

/-- A concrete store for the C8 scenario: one livestock in zone `z1` of farm
`f1`, plus an unrelated zone and farm. -/
def livestockStoreExample : LivestockStore :=
  { livestock := [("L1", ⟨"z1", "f1", "TAG-1"⟩)]
    zoneCounts := [("z1", 1), ("z2", 4)]
    farmCounts := [("f1", 1), ("f2", 7)]
    farmerCounts := [("bob", 2)] }

/-- Witness for C8: deleting the livestock decrements `z1` and `f1` to 0 and
leaves `z2`, `f2` and the farmer counters untouched. -/
theorem C8_witness :
    ((deleteLivestock livestockStoreExample "L1").map
        (fun t => lookupAssoc t.zoneCounts "z1") = some (some (1 - 1))) ∧
    ((deleteLivestock livestockStoreExample "L1").map
        (fun t => lookupAssoc t.farmCounts "f1") = some (some (1 - 1))) ∧
    ((deleteLivestock livestockStoreExample "L1").map
        (fun t => lookupAssoc t.zoneCounts "z2")
      = some (lookupAssoc livestockStoreExample.zoneCounts "z2")) ∧
    ((deleteLivestock livestockStoreExample "L1").map
        (fun t => t.farmerCounts) = some livestockStoreExample.farmerCounts) :=
  ⟨(C8_delete_livestock_decrements livestockStoreExample "L1" ⟨"z1", "f1", "TAG-1"⟩
      1 1 (by decide) (by decide) (by decide)).2.1,
   (C8_delete_livestock_decrements livestockStoreExample "L1" ⟨"z1", "f1", "TAG-1"⟩
      1 1 (by decide) (by decide) (by decide)).2.2.1,
   (C8_delete_livestock_decrements livestockStoreExample "L1" ⟨"z1", "f1", "TAG-1"⟩
      1 1 (by decide) (by decide) (by decide)).2.2.2.1 "z2" (by decide),
   (C8_delete_livestock_decrements livestockStoreExample "L1" ⟨"z1", "f1", "TAG-1"⟩
      1 1 (by decide) (by decide) (by decide)).2.2.2.2.2⟩

/-- The Firestore slice touched by the farm-deletion handler
(src/unnamed/part_006): farm documents (mapped to their owning farmer id)
and each farmer's `farms_count`. -/
structure FarmDb where
  farms : List (String × String)
  farmerCounts : List (String × ℤ)

/-- `DELETE /api/farms/:farmId` (src/unnamed/part_006 lines 212–243): delete
the farm document — Firestore `.delete()` succeeds even when no such
document exists — then `FieldValue.increment(-1)` the authenticated farmer's
`farms_count`, with no existence or ownership check anywhere. -/
def deleteFarm (s : FarmDb) (farmId farmerId : String) : FarmDb :=
  { farms := removeAssoc s.farms farmId
    farmerCounts := adjustAssoc s.farmerCounts farmerId (fun c => c - 1) }

/-- The true number of farm documents owned by a farmer, against which
`farms_count` is supposed to be the denormalized cache. -/
def ownedFarmsCount (s : FarmDb) (farmerId : String) : ℕ :=
  (s.farms.filter (fun p => p.2 == farmerId)).length

/-- Claim C10: every farm deletion decrements the authenticated farmer's
`farms_count` by exactly 1 regardless of whether the farm exists or is owned
by the caller; deleting a non-existent farm id therefore leaves the farm
documents unchanged while still decrementing the counter, pushing
`farms_count` strictly below the true number of owned farm documents
whenever the count invariant held before. -/
theorem C10_farms_count_unconditional_decrement
    (s : FarmDb) (farmId farmerId : String) (c : ℤ)
    (hc : lookupAssoc s.farmerCounts farmerId = some c) :
    (lookupAssoc (deleteFarm s farmId farmerId).farmerCounts farmerId
      = some (c - 1)) ∧
    (lookupAssoc s.farms farmId = none →
      (deleteFarm s farmId farmerId).farms = s.farms ∧
      (c = (ownedFarmsCount s farmerId : ℤ) →
        (c - 1 : ℤ) <
          (ownedFarmsCount (deleteFarm s farmId farmerId) farmerId : ℤ))) := by
  have hfarms : ∀ h : lookupAssoc s.farms farmId = none,
      (deleteFarm s farmId farmerId).farms = s.farms := by
    intro h
    simp [deleteFarm, removeAssoc_of_absent _ _ h]
  refine ⟨?_, ?_⟩
  · simp [deleteFarm, lookupAssoc_adjustAssoc_self, hc]
  · intro habs
    refine ⟨hfarms habs, ?_⟩
    intro hinv
    have hcount : ownedFarmsCount (deleteFarm s farmId farmerId) farmerId
        = ownedFarmsCount s farmerId := by
      unfold ownedFarmsCount
      rw [hfarms habs]
    rw [hcount, ← hinv]
    omega

/-- The C10 scenario: farmer `bob` owns exactly one farm and has a correct
`farms_count` of 1. -/
def farmDbExample : FarmDb :=
  { farms := [("farmA", "bob")]
    farmerCounts := [("bob", 1)] }

/-- Witness for C10: `bob` deletes a non-existent farm id; `farms_count`
drops to 0 while `bob` still owns one farm document. -/
theorem C10_witness :
    (lookupAssoc (deleteFarm farmDbExample "farmX" "bob").farmerCounts "bob"
      = some (1 - 1)) ∧
    ((1 - 1 : ℤ) <
      (ownedFarmsCount (deleteFarm farmDbExample "farmX" "bob") "bob" : ℤ)) :=
  ⟨(C10_farms_count_unconditional_decrement farmDbExample "farmX" "bob" 1
      (by decide)).1,
   ((C10_farms_count_unconditional_decrement farmDbExample "farmX" "bob" 1
      (by decide)).2 (by decide)).2 (by decide)⟩
